import Mathlib

/-!
Shallow embedding of the CI/CD orchestration core of this repository
(`app/models`, `app/services/pipeline_executor.py`,
`app/services/approval_service.py`, `app/services/event_bus.py`,
`app/services/webhook_handler.py`, `app/api/webhooks.py`).

The relational store is embedded as an explicit `DB` record of row lists;
each service operation is a pure function from the store (plus a `now`
timestamp where the source reads the clock) to `Except PyError` of its
result and the updated store.  SQLAlchemy's `scalar_one_or_none` is
embedded as `scalar_one_or_none` over the filtered row list, including its
multiple-rows error branch.  Identifiers (UUID strings in the source) are
embedded as opaque `Nat` tokens drawn from a `next_id` supply; timestamps
(`datetime.now(UTC)`) are `Nat` ticks measured in seconds.
-/

namespace CICD

/-- Status of a pipeline execution (`PipelineStatus` in app/models/pipeline.py). -/
inductive PipelineStatus
  | pending
  | running
  | waiting_approval
  | completed
  | failed
  | aborted
deriving DecidableEq, Repr

/-- String value of a pipeline status, as stored and rendered by the source. -/
def PipelineStatus.value : PipelineStatus → String
  | .pending => "pending"
  | .running => "running"
  | .waiting_approval => "waiting_approval"
  | .completed => "completed"
  | .failed => "failed"
  | .aborted => "aborted"

/-- Status of a pipeline step (`StepStatus` in app/models/pipeline.py). -/
inductive StepStatus
  | pending
  | running
  | completed
  | failed
  | skipped
deriving DecidableEq, Repr

/-- String value of a step status. -/
def StepStatus.value : StepStatus → String
  | .pending => "pending"
  | .running => "running"
  | .completed => "completed"
  | .failed => "failed"
  | .skipped => "skipped"

/-- Status of an approval request (`ApprovalStatus` in app/models/pipeline.py). -/
inductive ApprovalStatus
  | pending
  | approved
  | rejected
deriving DecidableEq, Repr

/-- String value of an approval status. -/
def ApprovalStatus.value : ApprovalStatus → String
  | .pending => "pending"
  | .approved => "approved"
  | .rejected => "rejected"

/-- A JSON-like value, embedding the `dict` payloads the webhook handler reads
(`payload`, `trigger_data` columns declared as JSON). -/
inductive JVal
  | jnull
  | jbool (b : Bool)
  | jnum (n : Int)
  | jstr (s : String)
  | jobj (fields : List (String × JVal))

/-- Python `d.get(k)` on an object: `none` when the key is absent (or the value
is not an object). -/
def JVal.get : JVal → String → Option JVal
  | .jobj fields, k => fields.lookup k
  | _, _ => none

/-- Python `d.get(k, default)`. -/
def JVal.getD (v : JVal) (k : String) (d : JVal) : JVal :=
  (v.get k).getD d

/-- Python truthiness of a JSON value (`if not x` branches in the handler). -/
def JVal.truthy : JVal → Bool
  | .jnull => false
  | .jbool b => b
  | .jnum n => n != 0
  | .jstr s => s != ""
  | .jobj fields => !fields.isEmpty

/-- Rendering of a JSON value into an f-string, as Python formats it. -/
def JVal.repr : JVal → String
  | .jnull => "None"
  | .jbool b => if b then "True" else "False"
  | .jnum n => toString n
  | .jstr s => s
  | .jobj _ => "object"

/-- A row of the `pipelines` table (`Pipeline` in app/models/pipeline.py).
The `created_at`/`updated_at` bookkeeping columns are never read by the
operations under verification and are omitted. -/
structure PipelineRow where
  id : Nat
  repo : String
  ref : String
  version : Option String
  status : PipelineStatus
  trigger : String
  trigger_data : Option JVal
  completed_at : Option Nat

/-- A row of the `pipeline_steps` table (`PipelineStep` in app/models/pipeline.py). -/
structure StepRow where
  id : Nat
  pipeline_id : Nat
  name : String
  stage : String
  status : StepStatus
  requires_approval : Bool
  started_at : Option Nat
  completed_at : Option Nat
  logs : Option String
  error : Option String
deriving DecidableEq

/-- A row of the `approvals` table (`Approval` in app/models/approval.py). -/
structure ApprovalRow where
  id : Nat
  pipeline_id : Nat
  step_id : Nat
  status : ApprovalStatus
  requested_at : Nat
  responded_at : Option Nat
  responded_by : Option String
  comment : Option String
deriving DecidableEq

/-- The relational store seen by the executor and the approval service. -/
structure DB where
  pipelines : List PipelineRow
  steps : List StepRow
  approvals : List ApprovalRow
  next_id : Nat

/-- Exceptions raised by the services (`PipelineExecutorError`, `ApprovalError`)
and by SQLAlchemy's `scalar_one_or_none` on a multi-row result. -/
inductive PyError
  | pipelineExecutorError (msg : String)
  | approvalError (msg : String)
  | multipleResultsFound
deriving DecidableEq

/-- SQLAlchemy `Result.scalar_one_or_none`: `none` on an empty result, the row
on a singleton result, `MultipleResultsFound` otherwise. -/
def scalar_one_or_none {α : Type} : List α → Except PyError (Option α)
  | [] => .ok none
  | [a] => .ok (some a)
  | _ => .error .multipleResultsFound

/-- Kind of a pipeline step (`StepType` in pipeline_executor.py). -/
inductive StepType
  | workflow
  | action
deriving DecidableEq, Repr

/-- Behavior when a step fails (`OnFailure` in pipeline_executor.py). -/
inductive OnFailure
  | abortPipeline
  | notify
  | rollback
deriving DecidableEq, Repr

/-- Definition of a pipeline step (`Step` dataclass in pipeline_executor.py).
The `action : Callable` field is the in-process behavior of action steps and
is not part of the materialized data; it is dispatched by name in
`_execute_action_step` and omitted here. -/
structure StepDef where
  name : String
  step_type : StepType
  workflow : Option String
  job : Option String
  requires_approval : Bool
  timeout_minutes : Nat
deriving DecidableEq, Repr

/-- Definition of a pipeline stage (`Stage` dataclass in pipeline_executor.py). -/
structure StageDef where
  name : String
  steps : List StepDef
  on_failure : OnFailure
deriving DecidableEq, Repr

/-- The fixed stage table `PIPELINE_STAGES` of pipeline_executor.py. -/
def PIPELINE_STAGES : List StageDef :=
  [⟨"validate",
    [⟨"lint", .workflow, some "ci.yml", some "lint", false, 30⟩,
     ⟨"test", .workflow, some "ci.yml", some "test", false, 30⟩,
     ⟨"security", .workflow, some "ci.yml", some "security", false, 30⟩,
     ⟨"docker-build", .workflow, some "ci.yml", some "docker", false, 30⟩],
    .abortPipeline⟩,
   ⟨"review",
    [⟨"create-pr", .action, none, none, false, 30⟩,
     ⟨"wait-ci", .action, none, none, false, 30⟩,
     ⟨"pr-merge", .action, none, none, true, 30⟩],
    .notify⟩,
   ⟨"release",
    [⟨"create-release", .action, none, none, true, 30⟩,
     ⟨"docker-push", .workflow, some "docker-build.yml", none, false, 30⟩,
     ⟨"appliance-build", .workflow, some "appliance-build.yml", none, false, 30⟩,
     ⟨"close-issue", .action, none, none, false, 30⟩],
    .rollback⟩]

/-- Application settings (app/config.py) relevant to the verified operations.
All are environment-configurable, so the operations take them as a parameter. -/
structure Settings where
  github_webhook_secret : String
  approval_timeout_hours : Nat
deriving DecidableEq

/-- Update every pipeline row matching an identifier (the ORM mutates the
loaded object; the embedding rewrites the row in place). -/
def update_pipeline_rows (ps : List PipelineRow) (pid : Nat)
    (f : PipelineRow → PipelineRow) : List PipelineRow :=
  ps.map fun p => if p.id = pid then f p else p

/-- PipelineExecutor._create_pipeline_steps: add one `PipelineStep` row per
entry of the fixed stage table, unconditionally. -/
def create_pipeline_steps (db : DB) (pid : Nat) : DB :=
  PIPELINE_STAGES.foldl
    (fun acc stage =>
      stage.steps.foldl
        (fun acc2 sd =>
          { acc2 with
            steps := acc2.steps ++
              [⟨acc2.next_id, pid, sd.name, stage.name, .pending,
                sd.requires_approval, none, none, none, none⟩],
            next_id := acc2.next_id + 1 })
        acc)
    db

/-- PipelineExecutor.start_pipeline: synchronous effects only — the launched
background task (`asyncio.create_task(self._execute_pipeline(...))`) runs
later and is not part of this call's store transition. -/
def start_pipeline (db : DB) (pipeline_id : Nat) :
    Except PyError (PipelineRow × DB) :=
  match scalar_one_or_none (db.pipelines.filter (fun p => p.id == pipeline_id)) with
  | .error e => .error e
  | .ok none =>
      .error (.pipelineExecutorError
        ("Pipeline " ++ toString pipeline_id ++ " not found"))
  | .ok (some p) =>
      if ¬(p.status = .pending ∨ p.status = .failed) then
        .error (.pipelineExecutorError
          ("Pipeline " ++ toString pipeline_id ++ " cannot be started (status: "
            ++ p.status.value ++ ")"))
      else
        let db1 := create_pipeline_steps db pipeline_id
        let db2 := { db1 with
          pipelines := update_pipeline_rows db1.pipelines pipeline_id
            (fun q => { q with status := .running }) }
        .ok ({ p with status := .running }, db2)

/-- PipelineExecutor.abort_pipeline.  The background-task cancellation touches
only the in-process task table; the store transition is embedded here. -/
def abort_pipeline (db : DB) (pipeline_id : Nat) (now : Nat) :
    Except PyError (PipelineRow × DB) :=
  match scalar_one_or_none (db.pipelines.filter (fun p => p.id == pipeline_id)) with
  | .error e => .error e
  | .ok none =>
      .error (.pipelineExecutorError
        ("Pipeline " ++ toString pipeline_id ++ " not found"))
  | .ok (some p) =>
      let pipelines2 := update_pipeline_rows db.pipelines pipeline_id
        (fun q => { q with status := .aborted, completed_at := some now })
      let steps2 := db.steps.map fun s =>
        if s.pipeline_id = pipeline_id ∧ (s.status = .pending ∨ s.status = .running)
        then { s with status := .skipped } else s
      .ok ({ p with status := .aborted, completed_at := some now },
           { db with pipelines := pipelines2, steps := steps2 })

/-- PipelineExecutor.retry_step. -/
def retry_step (db : DB) (pipeline_id step_id : Nat) :
    Except PyError (StepRow × DB) :=
  match scalar_one_or_none (db.steps.filter
      (fun s => s.id == step_id && s.pipeline_id == pipeline_id)) with
  | .error e => .error e
  | .ok none =>
      .error (.pipelineExecutorError ("Step " ++ toString step_id ++ " not found"))
  | .ok (some s) =>
      if s.status ≠ .failed then
        .error (.pipelineExecutorError
          ("Step " ++ toString step_id ++ " cannot be retried (status: "
            ++ s.status.value ++ ")"))
      else
        let s2 := { s with status := StepStatus.pending, error := none,
                           started_at := none, completed_at := none }
        let steps2 := db.steps.map fun t =>
          if t.id = step_id ∧ t.pipeline_id = pipeline_id then
            { t with status := StepStatus.pending, error := none,
                     started_at := none, completed_at := none }
          else t
        match scalar_one_or_none (db.pipelines.filter (fun p => p.id == pipeline_id)) with
        | .error e => .error e
        | .ok pfound =>
            let pipelines2 :=
              match pfound with
              | some p =>
                  if p.status = .failed then
                    update_pipeline_rows db.pipelines pipeline_id
                      (fun q => { q with status := .running })
                  else db.pipelines
              | none => db.pipelines
            .ok (s2, { db with steps := steps2, pipelines := pipelines2 })

/-- The `except Exception` arm of the background task
`PipelineExecutor._execute_pipeline`: any unhandled execution failure marks
the pipeline `failed`.  Used to reproduce the resume scenario. -/
def mark_pipeline_failed (db : DB) (pid : Nat) : DB :=
  { db with
    pipelines := update_pipeline_rows db.pipelines pid
      (fun q => { q with status := .failed }) }

/-- ApprovalService.request_approval. -/
def request_approval (db : DB) (pipeline_id step_id : Nat) (now : Nat) :
    Except PyError (ApprovalRow × DB) :=
  match scalar_one_or_none (db.pipelines.filter (fun p => p.id == pipeline_id)) with
  | .error e => .error e
  | .ok none =>
      .error (.approvalError ("Pipeline " ++ toString pipeline_id ++ " not found"))
  | .ok (some _) =>
      match scalar_one_or_none (db.steps.filter (fun s => s.id == step_id)) with
      | .error e => .error e
      | .ok none =>
          .error (.approvalError ("Step " ++ toString step_id ++ " not found"))
      | .ok (some _) =>
          match scalar_one_or_none (db.approvals.filter
              (fun a => a.pipeline_id == pipeline_id && a.step_id == step_id
                && a.status == ApprovalStatus.pending)) with
          | .error e => .error e
          | .ok (some existing) => .ok (existing, db)
          | .ok none =>
              let approval : ApprovalRow :=
                ⟨db.next_id, pipeline_id, step_id, .pending, now, none, none, none⟩
              let db2 := { db with
                approvals := db.approvals ++ [approval],
                pipelines := update_pipeline_rows db.pipelines pipeline_id
                  (fun q => { q with status := .waiting_approval }),
                next_id := db.next_id + 1 }
              .ok (approval, db2)

/-- ApprovalService.approve. -/
def approve (db : DB) (approval_id : Nat) (user : String) (comment : Option String)
    (now : Nat) : Except PyError (Bool × DB) :=
  match scalar_one_or_none (db.approvals.filter (fun a => a.id == approval_id)) with
  | .error e => .error e
  | .ok none =>
      .error (.approvalError ("Approval " ++ toString approval_id ++ " not found"))
  | .ok (some a) =>
      if a.status ≠ .pending then
        .error (.approvalError
          ("Approval " ++ toString approval_id ++ " is not pending (status: "
            ++ a.status.value ++ ")"))
      else
        let approvals2 := db.approvals.map fun b =>
          if b.id = approval_id then
            { b with status := ApprovalStatus.approved, responded_at := some now,
                     responded_by := some user, comment := comment }
          else b
        match scalar_one_or_none (db.pipelines.filter
            (fun p => p.id == a.pipeline_id)) with
        | .error e => .error e
        | .ok pfound =>
            let pipelines2 :=
              match pfound with
              | some _ =>
                  update_pipeline_rows db.pipelines a.pipeline_id
                    (fun q => { q with status := .running })
              | none => db.pipelines
            .ok (true, { db with approvals := approvals2, pipelines := pipelines2 })

/-- Python `x or default` on an optional string: `None` and the empty string
are falsy, so both fall through to the default. -/
def py_or_str (v : Option String) (d : String) : String :=
  match v with
  | some s => if s = "" then d else s
  | none => d

/-- ApprovalService.reject. -/
def reject (db : DB) (approval_id : Nat) (user : String) (reason : Option String)
    (now : Nat) : Except PyError (Bool × DB) :=
  match scalar_one_or_none (db.approvals.filter (fun a => a.id == approval_id)) with
  | .error e => .error e
  | .ok none =>
      .error (.approvalError ("Approval " ++ toString approval_id ++ " not found"))
  | .ok (some a) =>
      if a.status ≠ .pending then
        .error (.approvalError
          ("Approval " ++ toString approval_id ++ " is not pending (status: "
            ++ a.status.value ++ ")"))
      else
        let approvals2 := db.approvals.map fun b =>
          if b.id = approval_id then
            { b with status := ApprovalStatus.rejected, responded_at := some now,
                     responded_by := some user, comment := reason }
          else b
        match scalar_one_or_none (db.pipelines.filter
            (fun p => p.id == a.pipeline_id)) with
        | .error e => .error e
        | .ok pfound =>
            let pipelines2 :=
              match pfound with
              | some _ =>
                  update_pipeline_rows db.pipelines a.pipeline_id
                    (fun q => { q with status := PipelineStatus.failed })
              | none => db.pipelines
            match scalar_one_or_none (db.steps.filter
                (fun s => s.id == a.step_id)) with
            | .error e => .error e
            | .ok sfound =>
                let steps2 :=
                  match sfound with
                  | some _ =>
                      db.steps.map fun t =>
                        if t.id = a.step_id then
                          { t with status := StepStatus.failed,
                                   error := some ("Rejected by " ++ user ++ ": "
                                     ++ py_or_str reason "No reason provided") }
                        else t
                  | none => db.steps
                .ok (true, { db with approvals := approvals2,
                                     pipelines := pipelines2, steps := steps2 })

/-- ApprovalService.check_timeout.  `timedelta(hours = h)` is `h * 3600`
seconds of `Nat` clock; the SQLite naive/aware normalization changes no
instant and is dropped. -/
def check_timeout (cfg : Settings) (db : DB) (approval_id : Nat) (now : Nat) :
    Except PyError (Bool × DB) :=
  match scalar_one_or_none (db.approvals.filter (fun a => a.id == approval_id)) with
  | .error e => .error e
  | .ok none => .ok (false, db)
  | .ok (some a) =>
      if a.status ≠ .pending then .ok (false, db)
      else
        let deadline := a.requested_at + cfg.approval_timeout_hours * 3600
        if now > deadline then
          let approvals2 := db.approvals.map fun b =>
            if b.id = approval_id then
              { b with status := ApprovalStatus.rejected, responded_at := some now,
                       responded_by := some "system",
                       comment := some ("Timed out after "
                         ++ toString cfg.approval_timeout_hours ++ " hours") }
            else b
          match scalar_one_or_none (db.pipelines.filter
              (fun p => p.id == a.pipeline_id)) with
          | .error e => .error e
          | .ok pfound =>
              let pipelines2 :=
                match pfound with
                | some _ =>
                    update_pipeline_rows db.pipelines a.pipeline_id
                      (fun q => { q with status := PipelineStatus.failed })
                | none => db.pipelines
              .ok (true, { db with approvals := approvals2, pipelines := pipelines2 })
        else .ok (false, db)

/-- Event types of the SSE stream (`EventType` in app/schemas/event.py). -/
inductive EventType
  | pipeline_created
  | pipeline_updated
  | pipeline_completed
  | step_started
  | step_completed
  | step_log
  | approval_requested
  | approval_resolved
  | heartbeat
  | error
deriving DecidableEq, Repr

/-- An SSE stream event (`SSEEvent` in app/schemas/event.py).  `eid` is the
sequence identifier `event.id`, assigned by the bus at publish time.  Of the
payload, only the identifier-valued fields participate in any verified
operation (the `_matches_filter` lookups), so `data` carries those. -/
structure SSEEvent where
  eid : Option Nat
  etype : EventType
  data : List (String × Nat)
deriving DecidableEq, Repr

/-- An `asyncio.Queue`.  `maxsize = 0` — the default, used by `subscribe` —
means unbounded.  `put_nowait` returns `none` exactly when the queue is full
(`QueueFull` raised), which `publish` turns into dropping the event for that
subscriber. -/
structure AQueue where
  maxsize : Nat
  items : List SSEEvent
deriving DecidableEq, Repr

/-- asyncio `Queue.put_nowait`: a queue is full iff `0 < maxsize` and at least
`maxsize` items are held. -/
def AQueue.put_nowait (q : AQueue) (e : SSEEvent) : Option AQueue :=
  if 0 < q.maxsize ∧ q.maxsize ≤ q.items.length then none
  else some { q with items := q.items ++ [e] }

/-- The in-memory event bus (`EventBus` in app/services/event_bus.py): live
subscriber queues, the bounded replay buffer (default capacity 100), and the
monotonically increasing event counter starting at 0. -/
structure EventBus where
  subscribers : List (Nat × AQueue)
  buffer : List SSEEvent
  buffer_size : Nat
  event_counter : Nat
deriving DecidableEq, Repr

/-- A freshly constructed bus (`EventBus.__init__`). -/
def EventBus.fresh (buffer_size : Nat) : EventBus :=
  ⟨[], [], buffer_size, 0⟩

/-- EventBus._matches_filter. -/
def matches_filter (e : SSEEvent) (pipeline_id : Option Nat) : Bool :=
  match pipeline_id with
  | none => true
  | some pid =>
      if e.etype = .heartbeat ∨ e.etype = .error then true
      else e.data.lookup "pipeline_id" == some pid || e.data.lookup "id" == some pid

/-- The registration half of EventBus.subscribe: a fresh unbounded queue
(`asyncio.Queue()` with default `maxsize = 0`) is added under a new
subscriber identifier, pre-filled under the lock with the buffered events
matching the filter when `replay` is set.  The consuming loop that yields
from the queue is subscriber-side and not part of the bus state transition. -/
def EventBus.subscribe (bus : EventBus) (subscriber_id : Nat)
    (pipeline_id : Option Nat) (replay : Bool) : EventBus :=
  let queue : AQueue :=
    ⟨0, if replay then bus.buffer.filter (fun e => matches_filter e pipeline_id) else []⟩
  { bus with subscribers := bus.subscribers ++ [(subscriber_id, queue)] }

/-- EventBus.publish: step the counter, stamp the event, append to the buffer
evicting the oldest entry once capacity is exceeded, and enqueue to every
live subscriber, dropping the event for any subscriber whose queue is full. -/
def EventBus.publish (bus : EventBus) (e : SSEEvent) : EventBus :=
  let counter := bus.event_counter + 1
  let stamped := { e with eid := some counter }
  let buf1 := bus.buffer ++ [stamped]
  let buf2 := if bus.buffer_size < buf1.length then buf1.drop 1 else buf1
  let subs := bus.subscribers.map fun sq =>
    match sq.2.put_nowait stamped with
    | some q2 => (sq.1, q2)
    | none => sq
  ⟨subs, buf2, bus.buffer_size, counter⟩

/-- A sequence of publish calls against the bus. -/
def publish_all (bus : EventBus) (es : List SSEEvent) : EventBus :=
  es.foldl EventBus.publish bus

/-- The identifiers `publish` assigns to a list of events when the counter
currently reads `c`: event `i` (0-based) receives `c + i + 1`. -/
def stamp_from (c : Nat) : List SSEEvent → List SSEEvent
  | [] => []
  | e :: rest => { e with eid := some (c + 1) } :: stamp_from (c + 1) rest

/-- The last `n` entries of a list, in order. -/
def take_last {α : Type} (n : Nat) (l : List α) : List α :=
  l.drop (l.length - n)

/-- A row of the `webhook_events` table (`WebhookEvent` in
app/models/webhook.py); `github_delivery_id` carries a UNIQUE constraint in
the source schema.  The `created_at` bookkeeping column is never read by the
operations under verification and is omitted. -/
structure WebhookEventRow where
  id : Nat
  github_delivery_id : String
  event_type : String
  action : Option JVal
  repo : String
  payload : JVal
  processed : Bool
  processed_at : Option Nat
  pipeline_id : Option Nat
  error : Option String

/-- The slice of the store the webhook endpoint touches: inbound event rows
plus the pipelines it creates. -/
structure WebState where
  events : List WebhookEventRow
  pipelines : List PipelineRow
  next_id : Nat

/-- Python `value == "literal"` where `value` came out of a JSON dict: true
only for an equal string. -/
def JVal.eqStr : JVal → String → Bool
  | .jstr s, t => s == t
  | _, _ => false

/-- Python `d.get(k)` with JSON `null` normalized to `None`. -/
def JVal.pyGet (v : JVal) (k : String) : Option JVal :=
  match v.get k with
  | some .jnull => none
  | r => r

/-- Whether a JSON value is an object (a Python dict). -/
def JVal.isObj : JVal → Bool
  | .jobj _ => true
  | _ => false

/-- Python `d.get(k, default)` on a value that must be a dict: raises
AttributeError — embedded as the error outcome — when `d` is not one (e.g. a
JSON `null` stored under the key, or a non-object payload). -/
def JVal.dget (v : JVal) (k : String) (d : JVal) : Except String JVal :=
  match v with
  | .jobj fields => .ok ((fields.lookup k).getD d)
  | _ => .error "AttributeError"

/-- Python `d.get(k)` (default `None`) on a value that must be a dict. -/
def JVal.dgetOpt (v : JVal) (k : String) : Except String (Option JVal) :=
  match v with
  | .jobj _ => .ok (v.pyGet k)
  | _ => .error "AttributeError"

/-- Python string slicing `x[:n]`: raises TypeError when `x` is not a
string. -/
def JVal.pySlice (v : JVal) (n : Nat) : Except String String :=
  match v with
  | .jstr s => .ok (s.take n)
  | _ => .error "TypeError"

/-- A Python string-method receiver (`.startswith`, `.lstrip`): raises
AttributeError when the value is not a string. -/
def JVal.asPyStr : JVal → Except String String
  | .jstr s => .ok s
  | _ => .error "AttributeError"

/-- webhook_handler.verify_github_signature.  `mac` stands for the external
`hmac.new(secret, payload, sha256).hexdigest()` capability;
`signature.startswith("sha256=")` is the character-level prefix test,
embedded over the string's character data; `hmac.compare_digest` is equality
compared in constant time (timing is not observable in the embedding). -/
def verify_github_signature (mac : String → List Nat → String)
    (payload : List Nat) (signature : String) (secret : String) : Bool :=
  if signature = "" ∨ ¬ List.isPrefixOf "sha256=".data signature.data then false
  else
    let expected := "sha256=" ++ mac secret payload
    expected == signature

/-- WebhookHandler.is_duplicate. -/
def is_duplicate (st : WebState) (delivery_id : String) : Bool :=
  !(st.events.filter (fun e => e.github_delivery_id == delivery_id)).isEmpty

/-- WebhookHandler.store_event. -/
def store_event (st : WebState) (delivery_id event_type : String)
    (action : Option JVal) (repo : String) (payload : JVal) :
    WebhookEventRow × WebState :=
  let row : WebhookEventRow :=
    ⟨st.next_id, delivery_id, event_type, action, repo, payload,
     false, none, none, none⟩
  (row, { st with events := st.events ++ [row], next_id := st.next_id + 1 })

/-- WebhookHandler._handle_issue_labeled.  Every `.get` call on a non-dict
value (a JSON `null` or scalar stored under the key) raises AttributeError,
which `process_event`'s catch-all turns into an error recorded on the
event. -/
def handle_issue_labeled (st : WebState) (ev : WebhookEventRow) :
    Except String (Option PipelineRow × WebState) :=
  match ev.payload.dget "label" (.jobj []) with
  | .error e => .error e
  | .ok label =>
  match label.dget "name" (.jstr "") with
  | .error e => .error e
  | .ok label_name =>
  if ¬ label_name.eqStr "status:ready" then .ok (none, st)
  else
    match ev.payload.dget "issue" (.jobj []) with
    | .error e => .error e
    | .ok issue =>
    match issue.dgetOpt "number" with
    | .error e => .error e
    | .ok issue_number =>
    match issue.dget "title" (.jstr "") with
    | .error e => .error e
    | .ok issue_title =>
    let pipeline : PipelineRow :=
      ⟨st.next_id, ev.repo, "main", none, .pending, "issue_labeled",
       some (.jobj [("issue_number", issue_number.getD .jnull),
                    ("issue_title", issue_title),
                    ("label", label_name)]),
       none⟩
    .ok (some pipeline,
     { st with pipelines := st.pipelines ++ [pipeline], next_id := st.next_id + 1 })

/-- WebhookHandler._handle_pr_closed.  `.get` on a non-dict raises
AttributeError, and the `[:7]` slice of a non-string `merge_commit_sha`
raises TypeError; both surface through `process_event`'s catch-all. -/
def handle_pr_closed (st : WebState) (ev : WebhookEventRow) :
    Except String (Option PipelineRow × WebState) :=
  match ev.payload.dget "pull_request" (.jobj []) with
  | .error e => .error e
  | .ok pr =>
  match pr.dgetOpt "merged" with
  | .error e => .error e
  | .ok merged =>
  match (match merged with | some v => v.truthy | none => false) with
  | false => .ok (none, st)
  | true =>
    match pr.dgetOpt "number" with
    | .error e => .error e
    | .ok pr_number =>
    match pr.dget "title" (.jstr "") with
    | .error e => .error e
    | .ok pr_title =>
    match pr.dget "merge_commit_sha" (.jstr "") with
    | .error e => .error e
    | .ok merge_sha =>
    match merge_sha.pySlice 7 with
    | .error e => .error e
    | .ok merge_commit =>
    let pipeline : PipelineRow :=
      ⟨st.next_id, ev.repo,
       "refs/pull/" ++ (pr_number.getD .jnull).repr ++ "/merge",
       none, .pending, "pr_merged",
       some (.jobj [("pr_number", pr_number.getD .jnull),
                    ("pr_title", pr_title),
                    ("merge_commit", .jstr merge_commit)]),
       none⟩
    .ok (some pipeline,
     { st with pipelines := st.pipelines ++ [pipeline], next_id := st.next_id + 1 })

/-- WebhookHandler._handle_workflow_completed: log-only, creates nothing
(step reconciliation reserved for later work in the source), but its `.get`
calls still raise on a non-dict `workflow_run` value. -/
def handle_workflow_completed (st : WebState) (ev : WebhookEventRow) :
    Except String (Option PipelineRow × WebState) :=
  match ev.payload.dget "workflow_run" (.jobj []) with
  | .error e => .error e
  | .ok workflow_run =>
  match workflow_run.dgetOpt "conclusion" with
  | .error e => .error e
  | .ok _conclusion =>
  match workflow_run.dget "name" (.jstr "") with
  | .error e => .error e
  | .ok _workflow_name => .ok (none, st)

/-- WebhookHandler._handle_release_published.  `tag_name.lstrip("v")` strips
every leading `v`; `.get` on a non-dict `release` and the string methods on
a non-string `tag_name` raise, surfacing through the catch-all. -/
def handle_release_published (st : WebState) (ev : WebhookEventRow) :
    Except String (Option PipelineRow × WebState) :=
  match ev.payload.dget "release" (.jobj []) with
  | .error e => .error e
  | .ok release =>
  match release.dget "tag_name" (.jstr "") with
  | .error e => .error e
  | .ok tag_val =>
  match release.dget "name" (.jstr "") with
  | .error e => .error e
  | .ok release_name =>
  match tag_val.asPyStr with
  | .error e => .error e
  | .ok tag_name =>
  let version :=
    if tag_name.startsWith "v" then tag_name.dropWhile (fun c => c = 'v')
    else tag_name
  match release.dgetOpt "id" with
  | .error e => .error e
  | .ok release_id =>
  let pipeline : PipelineRow :=
    ⟨st.next_id, ev.repo, "refs/tags/" ++ tag_name, some version, .completed,
     "release_published",
     some (.jobj [("tag_name", .jstr tag_name),
                  ("release_name", release_name),
                  ("release_id", release_id.getD .jnull)]),
     none⟩
  .ok (some pipeline,
   { st with pipelines := st.pipelines ++ [pipeline], next_id := st.next_id + 1 })

/-- Python `event.action == "literal"` where `action` is `str | None`. -/
def action_is (a : Option JVal) (s : String) : Bool :=
  match a with
  | some v => v.eqStr s
  | none => false

/-- The dispatch table of WebhookHandler.process_event: the `(event type,
action)` if-chain selecting a handler, which may raise. -/
def process_event_dispatch (st : WebState) (ev : WebhookEventRow) :
    Except String (Option PipelineRow × WebState) :=
  if ev.event_type == "issues" && action_is ev.action "labeled" then
    handle_issue_labeled st ev
  else if ev.event_type == "pull_request" && action_is ev.action "closed" then
    handle_pr_closed st ev
  else if ev.event_type == "workflow_run" && action_is ev.action "completed" then
    handle_workflow_completed st ev
  else if ev.event_type == "release" && action_is ev.action "published" then
    handle_release_published st ev
  else .ok (none, st)

/-- WebhookHandler.process_event: dispatch on (event type, action), then mark
the event row processed.  Any exception during dispatch is caught: the error
text is recorded on the event row, no pipeline results, and the processed
flag and timestamp stay unset (the handlers raise before creating anything,
so the store is otherwise untouched). -/
def process_event (st : WebState) (ev : WebhookEventRow) (now : Nat) :
    Option PipelineRow × WebState :=
  match process_event_dispatch st ev with
  | .ok dispatched =>
      let pipeline := dispatched.1
      let st1 := dispatched.2
      let events2 := st1.events.map fun r =>
        if r.id = ev.id then
          { r with processed := true, processed_at := some now,
                   pipeline_id :=
                     match pipeline with
                     | some p => some p.id
                     | none => r.pipeline_id }
        else r
      (pipeline, { st1 with events := events2 })
  | .error e =>
      let events2 := st.events.map fun r =>
        if r.id = ev.id then { r with error := some e } else r
      (none, { st with events := events2 })

/-- HTTP outcome of the webhook endpoint.  `internalServerError` is the HTTP
500 FastAPI answers when the endpoint body raises outside any handler (the
repo/action extraction running on a non-dict value). -/
inductive WebhookResponse
  | unauthorized (detail : String)
  | badRequest (detail : String)
  | internalServerError
  | ignored
  | processed (event_id : Nat) (pipeline_id : Option Nat)
deriving DecidableEq, Repr

/-- The post-authentication body of api/webhooks.receive_github_webhook:
JSON parse outcome (`payload = none` embeds an unparsable body), then the
repository/action extraction — whose `.get` calls raise AttributeError,
hence HTTP 500, on a non-dict payload or a non-dict `repository` value,
before the duplicate check — then duplicate check, store, process. -/
def receive_verified (st : WebState) (payload : Option JVal)
    (x_github_event x_github_delivery : String) (now : Nat) :
    WebhookResponse × WebState :=
  match payload with
  | none => (.badRequest "Invalid JSON payload", st)
  | some p =>
      match p.dget "repository" (.jobj []) with
      | .error _ => (.internalServerError, st)
      | .ok repo =>
      match repo.dget "full_name" (.jstr "unknown/unknown") with
      | .error _ => (.internalServerError, st)
      | .ok full_name =>
      match p.dgetOpt "action" with
      | .error _ => (.internalServerError, st)
      | .ok action =>
      let repo_full_name := full_name.repr
      if is_duplicate st x_github_delivery then (.ignored, st)
      else
        let stored := store_event st x_github_delivery x_github_event action
          repo_full_name p
        let processed := process_event stored.2 stored.1 now
        (.processed stored.1.id (processed.1.map (fun q => q.id)), processed.2)

/-- api/webhooks.receive_github_webhook: signature gate (only when a secret
is configured; `if not x_hub_signature_256` treats an absent header and an
empty header value alike), then the verified body. -/
def receive_github_webhook (mac : String → List Nat → String) (cfg : Settings)
    (st : WebState) (body : List Nat) (payload : Option JVal)
    (x_github_event x_github_delivery : String)
    (x_hub_signature_256 : Option String) (now : Nat) :
    WebhookResponse × WebState :=
  if cfg.github_webhook_secret ≠ "" then
    match x_hub_signature_256 with
    | none => (.unauthorized "Missing signature", st)
    | some sig =>
        if sig = "" then (.unauthorized "Missing signature", st)
        else if ¬ verify_github_signature mac body sig cfg.github_webhook_secret then
          (.unauthorized "Invalid signature", st)
        else receive_verified st payload x_github_event x_github_delivery now
  else receive_verified st payload x_github_event x_github_delivery now

end CICD

open CICD

/-- A minimal pipeline row for concrete evaluations. -/
def samplePipeline (pid : Nat) (st : PipelineStatus) : PipelineRow :=
  ⟨pid, "org/app", "refs/heads/main", none, st, "manual", none, none⟩

/-- A store holding exactly one pipeline (identifier 1) and nothing else. -/
def soloDB (st : PipelineStatus) : DB :=
  ⟨[samplePipeline 1 st], [], [], 2⟩

/-- A minimal step row for concrete evaluations. -/
def sampleStep (sid pid : Nat) (st : StepStatus) : StepRow :=
  ⟨sid, pid, "pr-merge", "review", st, true, none, none, none, none⟩

/-- A minimal approval row for concrete evaluations. -/
def sampleApproval (aid pid sid : Nat) (st : ApprovalStatus) (req : Nat) : ApprovalRow :=
  ⟨aid, pid, sid, st, req, none, none, none⟩

/-- A store with one pipeline (1), one step (5) and one approval (7)
gating it, requested at tick 100. -/
def approvalDB (pst : PipelineStatus) (ast : ApprovalStatus) : DB :=
  ⟨[samplePipeline 1 pst], [sampleStep 5 1 .running], [sampleApproval 7 1 5 ast 100], 8⟩

/-- The store `approvalDB .waiting_approval .pending` after its approval
timed out at tick 86501 under a 24-hour timeout. -/
def c4_db2 : DB :=
  ⟨[samplePipeline 1 .failed], [sampleStep 5 1 .running],
   [⟨7, 1, 5, .rejected, 100, some 86501, some "system",
     some "Timed out after 24 hours"⟩], 8⟩

/-- An empty webhook store. -/
def webSt0 : WebState := ⟨[], [], 0⟩

/-- A webhook store already holding an event for delivery identifier `d1`. -/
def webSt1 : WebState :=
  ⟨[⟨0, "d1", "issues", some (.jstr "labeled"), "org/app", .jobj [], true,
     some 1, none, none⟩], [], 1⟩

/-- Three stream events for concrete event-bus evaluations. -/
def c6_events : List SSEEvent :=
  [⟨none, .pipeline_created, [("id", 1)]⟩,
   ⟨none, .step_started, [("pipeline_id", 1), ("step_id", 2)]⟩,
   ⟨none, .pipeline_updated, [("id", 1)]⟩]

/-- A bus with one live subscriber holding an unbounded empty queue. -/
def c10_bus : EventBus :=
  ⟨[(7, ⟨0, []⟩)], [], 100, 0⟩

/-- A stream event for the C10 evaluation. -/
def c10_event : SSEEvent :=
  ⟨none, .pipeline_updated, [("id", 1)]⟩

/-- The store after the first `start_pipeline` call on a fresh pending
pipeline. -/
def c1_db1 : DB :=
  (start_pipeline (soloDB .pending) 1).toOption.elim (soloDB .pending) Prod.snd

/-- The same store after the background execution failed (the executor's
failure arm marks the pipeline `failed`) and `start_pipeline` was called a
second time to resume. -/
def c1_db2 : DB :=
  (start_pipeline (mark_pipeline_failed c1_db1 1) 1).toOption.elim
    (mark_pipeline_failed c1_db1 1) Prod.snd

/-- C1: the first `start` materializes exactly one Step row per entry of the
fixed stage table (11 rows, exactly one for stage `validate`, name `lint`);
but a second `start` on the pipeline after an execution failure — the resume
path the claim calls idempotent — materializes a full second set: 22 rows,
two of them for the same (pipeline, stage, name) key.  This evaluates the
code at the failing input of the C1 code bug. -/
theorem start_pipeline_duplicates_step_rows_on_resume :
    c1_db1.steps.length = 11
    ∧ (c1_db1.steps.filter (fun s => s.stage == "validate" && s.name == "lint")).length = 1
    ∧ c1_db2.steps.length = 22
    ∧ (c1_db2.steps.filter (fun s => s.stage == "validate" && s.name == "lint")).length = 2 := by
  decide

/-- C2 counterexample: `abort` on a pipeline that is already `completed`
returns it with status `aborted` — not `completed` as the claim requires —
so the terminal statuses are not preserved by `abort`. -/
theorem abort_pipeline_aborts_completed_pipeline :
    ((abort_pipeline (soloDB .completed) 1 100).toOption.elim
        (samplePipeline 1 .completed) Prod.fst).status = .aborted
    ∧ PipelineStatus.aborted ≠ PipelineStatus.completed := by
  decide

/-- C2 (amended): pipelines in the terminal statuses `completed` and
`aborted` are protected from `start`, which fails with an operational error
naming the status and produces no store change; they are not protected from
`abort`: `abort`'s only guard is existence, and it sets any found pipeline —
including a completed one — to `aborted` with a completion timestamp,
marking its pending/running steps `skipped`. -/
theorem start_rejects_terminal_but_abort_overrides (db : DB) (pid now : Nat)
    (p : PipelineRow) (h : db.pipelines.filter (fun q => q.id == pid) = [p]) :
    ((p.status = .completed ∨ p.status = .aborted) →
      start_pipeline db pid = .error (.pipelineExecutorError
        ("Pipeline " ++ toString pid ++ " cannot be started (status: "
          ++ p.status.value ++ ")")))
    ∧ abort_pipeline db pid now = .ok
        ({ p with status := .aborted, completed_at := some now },
         { db with
           pipelines := update_pipeline_rows db.pipelines pid
             (fun q => { q with status := .aborted, completed_at := some now }),
           steps := db.steps.map fun s =>
             if s.pipeline_id = pid ∧ (s.status = .pending ∨ s.status = .running)
             then { s with status := .skipped } else s }) := by
  constructor
  · intro hst
    unfold start_pipeline
    rw [h]
    simp only [scalar_one_or_none]
    rcases hst with h1 | h1 <;> rw [h1]
    · rw [if_pos (show ¬(PipelineStatus.completed = .pending ∨
        PipelineStatus.completed = .failed) by decide)]
    · rw [if_pos (show ¬(PipelineStatus.aborted = .pending ∨
        PipelineStatus.aborted = .failed) by decide)]
  · unfold abort_pipeline
    rw [h]
    rfl

/-- C2 witness: the amended theorem applied to the concrete one-pipeline
store with a completed pipeline. -/
theorem start_rejects_terminal_but_abort_overrides_witness :
    start_pipeline (soloDB .completed) 1 = .error (.pipelineExecutorError
      "Pipeline 1 cannot be started (status: completed)") :=
  (start_rejects_terminal_but_abort_overrides (soloDB .completed) 1 100
    (samplePipeline 1 .completed) rfl).1 (Or.inl rfl)

/-- C9: `retryStep` on a missing step, or on a step not in `failed`, fails
with an operational error naming the status and produces no store (no
mutation); on a `failed` step it resets the step to `pending` with error and
both timestamps cleared, and resets the owning pipeline from `failed` to
`running`, leaving any other pipeline status unchanged; it launches no
execution. -/
theorem retry_step_spec (db : DB) (pid sid : Nat) :
    (db.steps.filter (fun t => t.id == sid && t.pipeline_id == pid) = [] →
      retry_step db pid sid = .error (.pipelineExecutorError
        ("Step " ++ toString sid ++ " not found")))
    ∧ ∀ s, db.steps.filter (fun t => t.id == sid && t.pipeline_id == pid) = [s] →
        (s.status ≠ .failed →
          retry_step db pid sid = .error (.pipelineExecutorError
            ("Step " ++ toString sid ++ " cannot be retried (status: "
              ++ s.status.value ++ ")")))
        ∧ (s.status = .failed →
            ∀ p, db.pipelines.filter (fun q => q.id == pid) = [p] →
              retry_step db pid sid = .ok
                ({ s with status := .pending, error := none,
                          started_at := none, completed_at := none },
                 { db with
                   steps := db.steps.map fun t =>
                     if t.id = sid ∧ t.pipeline_id = pid then
                       { t with status := .pending, error := none,
                                started_at := none, completed_at := none }
                     else t,
                   pipelines :=
                     if p.status = .failed then
                       update_pipeline_rows db.pipelines pid
                         (fun q => { q with status := .running })
                     else db.pipelines })) := by
  refine ⟨?_, ?_⟩
  · intro h
    unfold retry_step
    rw [h]
    rfl
  · intro s hs
    refine ⟨?_, ?_⟩
    · intro hne
      unfold retry_step
      rw [hs]
      simp only [scalar_one_or_none]
      rw [if_pos hne]
    · intro hf p hp
      unfold retry_step
      rw [hs, hp]
      simp only [scalar_one_or_none]
      rw [if_neg (by simp [hf])]

/-- C9 witness: a failed step of a failed pipeline is concretely reset. -/
theorem retry_step_spec_witness :
    retry_step
      ⟨[samplePipeline 1 .failed],
       [⟨5, 1, "lint", "validate", .failed, false, some 10, some 20, none, some "boom"⟩],
       [], 6⟩ 1 5
    = .ok (⟨5, 1, "lint", "validate", .pending, false, none, none, none, none⟩,
        ⟨[samplePipeline 1 .running],
         [⟨5, 1, "lint", "validate", .pending, false, none, none, none, none⟩],
         [], 6⟩) := by
  have h := (retry_step_spec
    ⟨[samplePipeline 1 .failed],
     [⟨5, 1, "lint", "validate", .failed, false, some 10, some 20, none, some "boom"⟩],
     [], 6⟩ 1 5).2
    ⟨5, 1, "lint", "validate", .failed, false, some 10, some 20, none, some "boom"⟩ rfl
  have h2 := h.2 rfl (samplePipeline 1 .failed) rfl
  simpa using h2

/-- Helper: filtering the rows matching an identifier commutes with an
update that rewrites exactly the rows with that identifier, provided the
update preserves the identifier. -/
theorem approvals_filter_map_update (l : List ApprovalRow) (aid : Nat)
    (f : ApprovalRow → ApprovalRow) (hf : ∀ b, (f b).id = b.id) :
    (l.map fun b => if b.id = aid then f b else b).filter (fun b => b.id == aid)
      = (l.filter (fun b => b.id == aid)).map f := by
  induction l with
  | nil => rfl
  | cons b r ih =>
      simp only [List.map_cons, List.filter_cons]
      by_cases hb : b.id = aid
      · have h1 : (b.id == aid) = true := by simp [hb]
        have h2 : ((f b).id == aid) = true := by simp [hf b, hb]
        rw [if_pos hb]
        simp [h1, h2, ih]
      · have h1 : (b.id == aid) = false := by simp [hb]
        rw [if_neg hb]
        simp [h1, ih]

/-- C3: while a pending Approval for the (pipeline, step) pair exists,
`requestApproval` returns exactly that record and leaves the store
untouched — no new row is created and the pipeline status is unchanged;
only when none exists does it create a new pending Approval and set the
pipeline status to `waiting_approval`. -/
theorem request_approval_pending_unique (db : DB) (pid sid now : Nat)
    (p : PipelineRow) (s : StepRow)
    (hp : db.pipelines.filter (fun q => q.id == pid) = [p])
    (hs : db.steps.filter (fun t => t.id == sid) = [s]) :
    (∀ a, db.approvals.filter
        (fun b => b.pipeline_id == pid && b.step_id == sid
          && b.status == ApprovalStatus.pending) = [a] →
      request_approval db pid sid now = .ok (a, db))
    ∧ (db.approvals.filter
        (fun b => b.pipeline_id == pid && b.step_id == sid
          && b.status == ApprovalStatus.pending) = [] →
      request_approval db pid sid now = .ok
        (⟨db.next_id, pid, sid, .pending, now, none, none, none⟩,
         { db with
           approvals := db.approvals ++
             [⟨db.next_id, pid, sid, .pending, now, none, none, none⟩],
           pipelines := update_pipeline_rows db.pipelines pid
             (fun q => { q with status := .waiting_approval }),
           next_id := db.next_id + 1 })) := by
  constructor
  · intro a ha
    unfold request_approval
    rw [hp, hs, ha]
    rfl
  · intro ha
    unfold request_approval
    rw [hp, hs, ha]
    rfl

/-- C3 witness: with a pending approval (identifier 7) in place for the
pair, a repeated request returns record 7 and the identical store. -/
theorem request_approval_pending_unique_witness :
    request_approval (approvalDB .waiting_approval .pending) 1 5 200
      = .ok (sampleApproval 7 1 5 .pending 100, approvalDB .waiting_approval .pending) :=
  (request_approval_pending_unique (approvalDB .waiting_approval .pending) 1 5 200
    (samplePipeline 1 .waiting_approval) (sampleStep 5 1 .running) rfl rfl).1
    (sampleApproval 7 1 5 .pending 100) rfl

/-- C4: `checkTimeout` returns not-timed-out with the store unchanged when
the approval is missing, not `pending`, or within the configured timeout;
when it is `pending` and the elapsed time exceeds the timeout it
force-rejects the approval with responder "system" and a timeout comment,
marks the owning pipeline `failed`, and returns timed-out — and every
subsequent call on the resulting store returns not-timed-out and changes
nothing. -/
theorem check_timeout_spec (cfg : Settings) (db : DB) (aid now : Nat) :
    (db.approvals.filter (fun b => b.id == aid) = [] →
      check_timeout cfg db aid now = .ok (false, db))
    ∧ ∀ a, db.approvals.filter (fun b => b.id == aid) = [a] →
        (a.status ≠ .pending → check_timeout cfg db aid now = .ok (false, db))
        ∧ (a.status = .pending →
            (¬ now > a.requested_at + cfg.approval_timeout_hours * 3600 →
              check_timeout cfg db aid now = .ok (false, db))
            ∧ (now > a.requested_at + cfg.approval_timeout_hours * 3600 →
               ∀ p, db.pipelines.filter (fun q => q.id == a.pipeline_id) = [p] →
               ∀ db2, db2 = { db with
                   approvals := db.approvals.map (fun b =>
                     if b.id = aid then
                       { b with status := ApprovalStatus.rejected,
                                responded_at := some now,
                                responded_by := some "system",
                                comment := some ("Timed out after "
                                  ++ toString cfg.approval_timeout_hours ++ " hours") }
                     else b),
                   pipelines := update_pipeline_rows db.pipelines a.pipeline_id
                     (fun q => { q with status := PipelineStatus.failed }) } →
                 check_timeout cfg db aid now = .ok (true, db2)
                 ∧ ∀ now2, check_timeout cfg db2 aid now2 = .ok (false, db2))) := by
  refine ⟨?_, ?_⟩
  · intro h
    unfold check_timeout
    rw [h]
    rfl
  · intro a ha
    refine ⟨?_, ?_⟩
    · intro hne
      unfold check_timeout
      rw [ha]
      simp only [scalar_one_or_none]
      rw [if_pos hne]
    · intro hpend
      refine ⟨?_, ?_⟩
      · intro hlt
        unfold check_timeout
        rw [ha]
        simp only [scalar_one_or_none]
        rw [if_neg (by simp [hpend]), if_neg hlt]
      · intro hgt p hp db2 hdb2
        have hupd : db2.approvals.filter (fun b => b.id == aid)
            = [{ a with status := ApprovalStatus.rejected,
                        responded_at := some now,
                        responded_by := some "system",
                        comment := some ("Timed out after "
                          ++ toString cfg.approval_timeout_hours ++ " hours") }] := by
          simp only [hdb2]
          rw [approvals_filter_map_update db.approvals aid
            (fun b => { b with status := ApprovalStatus.rejected,
                               responded_at := some now,
                               responded_by := some "system",
                               comment := some ("Timed out after "
                                 ++ toString cfg.approval_timeout_hours ++ " hours") })
            (fun b => rfl), ha]
          rfl
        constructor
        · unfold check_timeout
          rw [ha]
          simp only [scalar_one_or_none]
          rw [if_neg (by simp [hpend]), if_pos hgt, hp]
          simp only [scalar_one_or_none]
          rw [hdb2]
        · intro now2
          unfold check_timeout
          rw [hupd]
          rfl

/-- C4 witness: approval 7, requested at tick 100 under a 24-hour timeout,
checked at tick 86501 (one second past the deadline): force-rejected once;
a later check at any time changes nothing. -/
theorem check_timeout_spec_witness :
    check_timeout ⟨"", 24⟩ (approvalDB .waiting_approval .pending) 7 86501
      = .ok (true, c4_db2)
    ∧ check_timeout ⟨"", 24⟩ c4_db2 7 999999 = .ok (false, c4_db2) := by
  have h := ((((check_timeout_spec ⟨"", 24⟩ (approvalDB .waiting_approval .pending)
      7 86501).2 (sampleApproval 7 1 5 .pending 100) rfl).2 rfl).2 (by decide))
      (samplePipeline 1 .waiting_approval) rfl c4_db2 (by rfl)
  exact ⟨h.1, h.2 999999⟩

/-- C5: `approve` and `reject` fail with an operational error naming the
current status unless the approval exists and is `pending`; on a pending
approval both set status, responder, response timestamp and comment/reason;
`approve` returns the owning pipeline to `running`; `reject` marks the
owning pipeline `failed` and the gated step `failed` with an error text
citing the responder and the reason. -/
theorem approve_reject_spec (db : DB) (aid now : Nat) (user : String)
    (comment reason : Option String) :
    (db.approvals.filter (fun b => b.id == aid) = [] →
      approve db aid user comment now = .error (.approvalError
        ("Approval " ++ toString aid ++ " not found"))
      ∧ reject db aid user reason now = .error (.approvalError
        ("Approval " ++ toString aid ++ " not found")))
    ∧ ∀ a, db.approvals.filter (fun b => b.id == aid) = [a] →
        (a.status ≠ .pending →
          approve db aid user comment now = .error (.approvalError
            ("Approval " ++ toString aid ++ " is not pending (status: "
              ++ a.status.value ++ ")"))
          ∧ reject db aid user reason now = .error (.approvalError
            ("Approval " ++ toString aid ++ " is not pending (status: "
              ++ a.status.value ++ ")")))
        ∧ (a.status = .pending →
            ∀ p, db.pipelines.filter (fun q => q.id == a.pipeline_id) = [p] →
              approve db aid user comment now = .ok (true,
                { db with
                  approvals := db.approvals.map (fun b =>
                    if b.id = aid then
                      { b with status := ApprovalStatus.approved,
                               responded_at := some now,
                               responded_by := some user, comment := comment }
                    else b),
                  pipelines := update_pipeline_rows db.pipelines a.pipeline_id
                    (fun q => { q with status := .running }) })
              ∧ ∀ s, db.steps.filter (fun t => t.id == a.step_id) = [s] →
                  reject db aid user reason now = .ok (true,
                    { db with
                      approvals := db.approvals.map (fun b =>
                        if b.id = aid then
                          { b with status := ApprovalStatus.rejected,
                                   responded_at := some now,
                                   responded_by := some user, comment := reason }
                        else b),
                      pipelines := update_pipeline_rows db.pipelines a.pipeline_id
                        (fun q => { q with status := PipelineStatus.failed }),
                      steps := db.steps.map (fun t =>
                        if t.id = a.step_id then
                          { t with status := StepStatus.failed,
                                   error := some ("Rejected by " ++ user ++ ": "
                                     ++ py_or_str reason "No reason provided") }
                        else t) })) := by
  refine ⟨?_, ?_⟩
  · intro h
    constructor
    · unfold approve
      rw [h]
      rfl
    · unfold reject
      rw [h]
      rfl
  · intro a ha
    refine ⟨?_, ?_⟩
    · intro hne
      constructor
      · unfold approve
        rw [ha]
        simp only [scalar_one_or_none]
        rw [if_pos hne]
      · unfold reject
        rw [ha]
        simp only [scalar_one_or_none]
        rw [if_pos hne]
    · intro hpend p hp
      constructor
      · unfold approve
        rw [ha]
        simp only [scalar_one_or_none]
        rw [if_neg (by simp [hpend]), hp]
      · intro s hs
        unfold reject
        rw [ha]
        simp only [scalar_one_or_none]
        rw [if_neg (by simp [hpend]), hp]
        simp only [scalar_one_or_none]
        rw [hs]

/-- C5 witness: pending approval 7 gating step 5 of pipeline 1: `approve`
returns the pipeline to `running`; on the same initial store `reject` turns
the pipeline `failed` and the step `failed` with the citing error text — and
with an empty-string reason the recorded error falls back to the default, as
Python's `or` does. -/
theorem approve_reject_spec_witness :
    approve (approvalDB .waiting_approval .pending) 7 "alice" (some "ok") 300
      = .ok (true, ⟨[samplePipeline 1 .running], [sampleStep 5 1 .running],
          [⟨7, 1, 5, .approved, 100, some 300, some "alice", some "ok"⟩], 8⟩)
    ∧ reject (approvalDB .waiting_approval .pending) 7 "alice" (some "nope") 300
      = .ok (true, ⟨[samplePipeline 1 .failed],
          [⟨5, 1, "pr-merge", "review", .failed, true, none, none, none,
            some "Rejected by alice: nope"⟩],
          [⟨7, 1, 5, .rejected, 100, some 300, some "alice", some "nope"⟩], 8⟩)
    ∧ reject (approvalDB .waiting_approval .pending) 7 "alice" (some "") 300
      = .ok (true, ⟨[samplePipeline 1 .failed],
          [⟨5, 1, "pr-merge", "review", .failed, true, none, none, none,
            some "Rejected by alice: No reason provided"⟩],
          [⟨7, 1, 5, .rejected, 100, some 300, some "alice", some ""⟩], 8⟩) := by
  have h := ((approve_reject_spec (approvalDB .waiting_approval .pending) 7 300
      "alice" (some "ok") (some "nope")).2
      (sampleApproval 7 1 5 .pending 100) rfl).2 rfl
      (samplePipeline 1 .waiting_approval) rfl
  have h2 := ((approve_reject_spec (approvalDB .waiting_approval .pending) 7 300
      "alice" (some "ok") (some "")).2
      (sampleApproval 7 1 5 .pending 100) rfl).2 rfl
      (samplePipeline 1 .waiting_approval) rfl
  exact ⟨h.1, h.2 (sampleStep 5 1 .running) rfl, h2.2 (sampleStep 5 1 .running) rfl⟩

/-- Helper: `take_last` returns at most `n` entries. -/
theorem take_last_length_le {α : Type} (n : Nat) (l : List α) :
    (take_last n l).length ≤ n := by
  simp [take_last, List.length_drop]
  omega

/-- Helper: `take_last` of a short enough list is the list itself. -/
theorem take_last_of_length_le {α : Type} (n : Nat) (l : List α)
    (h : l.length ≤ n) : take_last n l = l := by
  simp [take_last, Nat.sub_eq_zero_of_le h]

/-- Helper: keeping the last `N` entries, appending, and keeping the last
`N` again is the same as appending and keeping the last `N` once. -/
theorem take_last_append_take_last {α : Type} (N : Nat) (xs ys : List α) :
    take_last N (take_last N xs ++ ys) = take_last N (xs ++ ys) := by
  simp only [take_last, List.length_append, List.length_drop,
    List.drop_append_eq_append_drop, List.drop_drop]
  congr 1
  · congr 1
    omega
  · congr 1
    omega

/-- Helper: one `publish` keeps the last `buffer_size` entries of the buffer
extended by the freshly stamped event. -/
theorem publish_buffer (bus : EventBus) (e : SSEEvent)
    (h : bus.buffer.length ≤ bus.buffer_size) :
    (bus.publish e).buffer = take_last bus.buffer_size
      (bus.buffer ++ [{ e with eid := some (bus.event_counter + 1) }]) := by
  have hdef : (bus.publish e).buffer
      = if bus.buffer_size
            < (bus.buffer ++ [{ e with eid := some (bus.event_counter + 1) }]).length
        then (bus.buffer ++ [{ e with eid := some (bus.event_counter + 1) }]).drop 1
        else bus.buffer ++ [{ e with eid := some (bus.event_counter + 1) }] := rfl
  rw [hdef, take_last]
  by_cases hc : bus.buffer_size
      < (bus.buffer ++ [{ e with eid := some (bus.event_counter + 1) }]).length
  · rw [if_pos hc]
    congr 1
    simp only [List.length_append, List.length_cons, List.length_nil] at hc ⊢
    omega
  · rw [if_neg hc]
    have : (bus.buffer ++ [{ e with eid := some (bus.event_counter + 1) }]).length
        - bus.buffer_size = 0 := by
      simp only [List.length_append, List.length_cons, List.length_nil] at hc ⊢
      omega
    rw [this, List.drop_zero]

/-- Helper: a run of `publish` calls keeps the last `buffer_size` entries of
the buffer extended by the stamped run, and advances the counter by the
number of events published. -/
theorem publish_all_state (es : List SSEEvent) : ∀ (bus : EventBus),
    bus.buffer.length ≤ bus.buffer_size →
    (publish_all bus es).buffer
        = take_last bus.buffer_size (bus.buffer ++ stamp_from bus.event_counter es)
    ∧ (publish_all bus es).event_counter = bus.event_counter + es.length
    ∧ (publish_all bus es).buffer_size = bus.buffer_size := by
  induction es with
  | nil =>
      intro bus h
      refine ⟨?_, rfl, rfl⟩
      show bus.buffer = _
      rw [stamp_from, List.append_nil, take_last_of_length_le _ _ h]
  | cons e rest ih =>
      intro bus h
      have key : publish_all bus (e :: rest) = publish_all (bus.publish e) rest := rfl
      have h1 := publish_buffer bus e h
      have h2 : (bus.publish e).buffer_size = bus.buffer_size := rfl
      have h3 : (bus.publish e).event_counter = bus.event_counter + 1 := rfl
      have hle : (bus.publish e).buffer.length ≤ (bus.publish e).buffer_size := by
        rw [h1, h2]
        exact take_last_length_le _ _
      obtain ⟨ha, hb, hc⟩ := ih (bus.publish e) hle
      refine ⟨?_, ?_, ?_⟩
      · rw [key, ha, h1, h2, h3, take_last_append_take_last, stamp_from]
        rw [List.append_assoc, List.singleton_append]
      · rw [key, hb, h3]
        simp [stamp_from]
        omega
      · rw [key, hc, h2]

/-- Helper: stamping preserves the number of events. -/
theorem stamp_from_length (l : List SSEEvent) : ∀ c : Nat,
    (stamp_from c l).length = l.length := by
  induction l with
  | nil => intro c; rfl
  | cons e rest ih =>
      intro c
      rw [stamp_from, List.length_cons, List.length_cons, ih (c + 1)]

/-- Helper: the identifiers stamped onto a run of events starting from
counter value `c` are `c + 1, c + 2, …` in order. -/
theorem stamp_from_map_eid (l : List SSEEvent) : ∀ c : Nat,
    (stamp_from c l).map SSEEvent.eid = (List.range' (c + 1) l.length).map some := by
  induction l with
  | nil => intro c; rfl
  | cons e rest ih =>
      intro c
      rw [stamp_from, List.map_cons, List.length_cons, List.range'_succ,
        List.map_cons, ih (c + 1)]

/-- C6: publishing `N + k` events into a fresh bus with buffer capacity `N`
leaves the buffer holding exactly the last `N` published (stamped) events in
publication order, and the sequence identifiers assigned at publish time
across the run are `1, 2, …, N + k` — strictly increasing, starting at 1. -/
theorem event_bus_retains_last_N (N k : Nat) (es : List SSEEvent)
    (h : es.length = N + k) :
    (publish_all (EventBus.fresh N) es).buffer = (stamp_from 0 es).drop k
    ∧ (stamp_from 0 es).map SSEEvent.eid = (List.range' 1 (N + k)).map some := by
  constructor
  · have hres := (publish_all_state es (EventBus.fresh N) (Nat.zero_le N)).1
    rw [hres]
    show take_last N ([] ++ stamp_from 0 es) = _
    rw [List.nil_append, take_last]
    congr 1
    rw [stamp_from_length es 0, h]
    omega
  · rw [stamp_from_map_eid es 0, h]

/-- C6 witness: three events into a fresh bus of capacity 2 retain the last
two stamped events, with identifiers 1, 2, 3 assigned across the run. -/
theorem event_bus_retains_last_N_witness :
    (publish_all (EventBus.fresh 2) c6_events).buffer = (stamp_from 0 c6_events).drop 1
    ∧ (stamp_from 0 c6_events).map SSEEvent.eid = (List.range' 1 (2 + 1)).map some :=
  event_bus_retains_last_N 2 1 c6_events rfl

/-- C10: `subscribe` always registers a queue with `maxsize = 0` — unbounded,
asyncio's default — and when every live subscriber's queue is unbounded, as
all queues created by `subscribe` are, `publish` appends the stamped event to
every subscriber's queue: the queue-full drop branch never fires and no live
subscriber loses a published event. -/
theorem subscribe_unbounded_publish_never_drops (bus : EventBus) (sid : Nat)
    (pid : Option Nat) (replay : Bool) (e : SSEEvent) :
    ((bus.subscribe sid pid replay).subscribers.map (fun sq => sq.2.maxsize)
      = bus.subscribers.map (fun sq => sq.2.maxsize) ++ [0])
    ∧ ((∀ sq ∈ bus.subscribers, sq.2.maxsize = 0) →
        (bus.publish e).subscribers = bus.subscribers.map (fun sq =>
          (sq.1, ⟨sq.2.maxsize,
            sq.2.items ++ [{ e with eid := some (bus.event_counter + 1) }]⟩))) := by
  constructor
  · show (bus.subscribers ++ [(sid, _)]).map _ = _
    rw [List.map_append]
    rfl
  · intro hall
    have hdef : (bus.publish e).subscribers = bus.subscribers.map (fun sq =>
        match sq.2.put_nowait { e with eid := some (bus.event_counter + 1) } with
        | some q2 => (sq.1, q2)
        | none => sq) := rfl
    rw [hdef]
    refine List.map_congr_left ?_
    intro sq hsq
    have h0 := hall sq hsq
    rw [AQueue.put_nowait, if_neg (by rw [h0]; omega)]

/-- C10 witness: publishing to a bus whose single subscriber holds an
unbounded queue delivers the stamped event to that queue. -/
theorem subscribe_unbounded_publish_never_drops_witness :
    (c10_bus.publish c10_event).subscribers
      = c10_bus.subscribers.map (fun sq => (sq.1, ⟨sq.2.maxsize,
          sq.2.items ++ [{ c10_event with eid := some (c10_bus.event_counter + 1) }]⟩)) :=
  (subscribe_unbounded_publish_never_drops c10_bus 9 none false c10_event).2 (by
    intro sq hsq
    rw [show c10_bus.subscribers = [(7, ⟨0, []⟩)] from rfl,
      List.mem_singleton] at hsq
    rw [hsq])


/-- Helper: a string with the `sha256=` scheme prepended is never empty. -/
theorem sha_prefixed_ne_empty (s : String) : ("sha256=" ++ s) ≠ "" := by
  intro hcontra
  have hdata := congrArg String.data hcontra
  rw [String.data_append, show ("" : String).data = [] from rfl] at hdata
  obtain ⟨h1, -⟩ := List.append_eq_nil.mp hdata
  exact absurd h1 (by decide)

/-- Helper: the correct signature string passes verification. -/
theorem verify_github_signature_correct (mac : String → List Nat → String)
    (body : List Nat) (secret : String) :
    verify_github_signature mac body ("sha256=" ++ mac secret body) secret = true := by
  have hpre : List.isPrefixOf "sha256=".data ("sha256=" ++ mac secret body).data
      = true := by
    rw [List.isPrefixOf_iff_prefix, String.data_append]
    exact List.prefix_append _ _
  have hne := sha_prefixed_ne_empty (mac secret body)
  unfold verify_github_signature
  rw [if_neg (by simp [hpre, hne])]
  simp

/-- Helper: any signature other than the correct one fails verification. -/
theorem verify_github_signature_wrong (mac : String → List Nat → String)
    (body : List Nat) (secret s : String)
    (hs : s ≠ "sha256=" ++ mac secret body) :
    verify_github_signature mac body s secret = false := by
  unfold verify_github_signature
  by_cases hc : s = "" ∨ ¬ List.isPrefixOf "sha256=".data s.data
  · rw [if_pos hc]
  · rw [if_neg hc]
    exact beq_eq_false_iff_ne.mpr fun h => hs h.symm

/-- Helper: the signature gate passes, and the endpoint runs its verified
body, exactly when no secret is configured or the correct signature is
presented (the correct signature is nonempty, so the empty-header guard
never fires on it). -/
theorem receive_accepts (mac : String → List Nat → String) (cfg : Settings)
    (st : WebState) (body : List Nat) (payload : Option JVal)
    (evt del : String) (sig : Option String) (now : Nat)
    (hauth : cfg.github_webhook_secret = ""
      ∨ sig = some ("sha256=" ++ mac cfg.github_webhook_secret body)) :
    receive_github_webhook mac cfg st body payload evt del sig now
      = receive_verified st payload evt del now := by
  unfold receive_github_webhook
  rcases hauth with h | h
  · rw [if_neg (by simp [h])]
  · by_cases hsec : cfg.github_webhook_secret = ""
    · rw [if_neg (by simp [hsec])]
    · rw [if_pos hsec, h]
      have hv := verify_github_signature_correct mac body cfg.github_webhook_secret
      show (if ("sha256=" ++ mac cfg.github_webhook_secret body) = ""
            then (WebhookResponse.unauthorized "Missing signature", st)
            else if ¬ verify_github_signature mac body
                ("sha256=" ++ mac cfg.github_webhook_secret body)
                cfg.github_webhook_secret
            then (WebhookResponse.unauthorized "Invalid signature", st)
            else receive_verified st payload evt del now)
          = receive_verified st payload evt del now
      rw [if_neg (sha_prefixed_ne_empty _), if_neg (by simp [hv])]

/-- Helper: `.get` with a default on a dict value never raises and returns
what plain lookup-with-default returns. -/
theorem JVal.dget_of_isObj (v : JVal) (h : v.isObj = true) (k : String)
    (d : JVal) : v.dget k d = .ok (v.getD k d) := by
  cases v <;> simp_all [JVal.isObj, JVal.dget, JVal.getD, JVal.get]

/-- Helper: `.get` without a default on a dict value never raises. -/
theorem JVal.dgetOpt_of_isObj (v : JVal) (h : v.isObj = true) (k : String) :
    v.dgetOpt k = .ok (v.pyGet k) := by
  cases v <;> simp_all [JVal.isObj, JVal.dgetOpt]

/-- Helper: a successful issue-labeled handler leaves the stored inbound
event rows untouched (it only appends a pipeline). -/
theorem handle_issue_labeled_ok_events (st : WebState) (ev : WebhookEventRow)
    (d : Option PipelineRow × WebState)
    (h : handle_issue_labeled st ev = .ok d) : d.2.events = st.events := by
  unfold handle_issue_labeled at h
  repeat' split at h
  all_goals cases h
  all_goals rfl

/-- Helper: a successful pr-closed handler leaves the stored inbound event
rows untouched. -/
theorem handle_pr_closed_ok_events (st : WebState) (ev : WebhookEventRow)
    (d : Option PipelineRow × WebState)
    (h : handle_pr_closed st ev = .ok d) : d.2.events = st.events := by
  unfold handle_pr_closed at h
  repeat' split at h
  all_goals cases h
  all_goals rfl

/-- Helper: a successful workflow-completed handler leaves the store
untouched. -/
theorem handle_workflow_completed_ok_events (st : WebState)
    (ev : WebhookEventRow) (d : Option PipelineRow × WebState)
    (h : handle_workflow_completed st ev = .ok d) : d.2.events = st.events := by
  unfold handle_workflow_completed at h
  repeat' split at h
  all_goals cases h
  all_goals rfl

/-- Helper: a successful release-published handler leaves the stored inbound
event rows untouched. -/
theorem handle_release_published_ok_events (st : WebState)
    (ev : WebhookEventRow) (d : Option PipelineRow × WebState)
    (h : handle_release_published st ev = .ok d) : d.2.events = st.events := by
  unfold handle_release_published at h
  repeat' split at h
  all_goals cases h
  all_goals rfl

/-- Helper: a successful dispatch leaves the stored inbound event rows
untouched, whichever handler ran. -/
theorem process_event_dispatch_ok_events (st : WebState) (ev : WebhookEventRow)
    (d : Option PipelineRow × WebState)
    (h : process_event_dispatch st ev = .ok d) : d.2.events = st.events := by
  unfold process_event_dispatch at h
  split at h
  · exact handle_issue_labeled_ok_events st ev d h
  · split at h
    · exact handle_pr_closed_ok_events st ev d h
    · split at h
      · exact handle_workflow_completed_ok_events st ev d h
      · split at h
        · exact handle_release_published_ok_events st ev d h
        · cases h
          rfl

/-- Helper: a row update that preserves delivery identifiers preserves the
outcome of the duplicate check. -/
theorem filter_delivery_isEmpty_map (l : List WebhookEventRow)
    (u : WebhookEventRow → WebhookEventRow)
    (hu : ∀ r, (u r).github_delivery_id = r.github_delivery_id) (d : String) :
    ((l.map u).filter (fun e => e.github_delivery_id == d)).isEmpty
      = (l.filter (fun e => e.github_delivery_id == d)).isEmpty := by
  induction l with
  | nil => rfl
  | cons r rest ih =>
      simp only [List.map_cons, List.filter_cons, hu r]
      by_cases hr : (r.github_delivery_id == d) = true
      · simp [hr]
      · simp only [hr, Bool.false_eq_true, if_false, ih]

/-- Helper: `process_event` neither adds nor removes inbound event rows —
both its processed-flag update and its catch-all error recording keep every
delivery identifier — so the duplicate check is unaffected. -/
theorem is_duplicate_process_event (st : WebState) (ev : WebhookEventRow)
    (now : Nat) (d : String) :
    is_duplicate (process_event st ev now).2 d = is_duplicate st d := by
  unfold process_event
  cases hd : process_event_dispatch st ev with
  | ok dres =>
      simp only [hd]
      unfold is_duplicate
      rw [filter_delivery_isEmpty_map _ _ ?hu,
        process_event_dispatch_ok_events st ev dres hd]
      case hu =>
        intro r
        by_cases hr : r.id = ev.id
        · rw [if_pos hr]
        · rw [if_neg hr]
  | error e =>
      simp only [hd]
      unfold is_duplicate
      rw [filter_delivery_isEmpty_map _ _ ?hu2]
      case hu2 =>
        intro r
        by_cases hr : r.id = ev.id
        · rw [if_pos hr]
        · rw [if_neg hr]

/-- Helper: storing an event makes its delivery identifier a duplicate. -/
theorem is_duplicate_store_event (st : WebState) (d evt : String)
    (action : Option JVal) (repo : String) (p : JVal) :
    is_duplicate (store_event st d evt action repo p).2 d = true := by
  unfold is_duplicate store_event
  simp only [List.filter_append]
  have hrow : (List.filter (fun e => e.github_delivery_id == d)
      [(⟨st.next_id, d, evt, action, repo, p, false, none, none, none⟩ : WebhookEventRow)])
      = [⟨st.next_id, d, evt, action, repo, p, false, none, none, none⟩] := by
    simp [List.filter_cons]
  rw [hrow]
  simp

/-- C7: once the signature gate passes (no secret configured, or the correct
signature presented) and the payload is a JSON object whose `repository`
entry is one too (otherwise the endpoint 500s before the duplicate check), a
delivery whose identifier already has a stored InboundEvent is acknowledged
"ignored" with the store unchanged — no second InboundEvent row and no
second Pipeline are created; and any delivery the endpoint answers
"processed" leaves a store in which that identifier is a duplicate, so its
second `storeEvent`/`processEvent` round is the ignored no-op. -/
theorem duplicate_delivery_ignored (mac : String → List Nat → String)
    (cfg : Settings) (st : WebState) (body : List Nat) (p : JVal)
    (evt del : String) (sig : Option String) (now : Nat)
    (hauth : cfg.github_webhook_secret = ""
      ∨ sig = some ("sha256=" ++ mac cfg.github_webhook_secret body))
    (hobj : p.isObj = true)
    (hrepo : (p.getD "repository" (.jobj [])).isObj = true) :
    (is_duplicate st del = true →
      receive_github_webhook mac cfg st body (some p) evt del sig now
        = (.ignored, st))
    ∧ (∀ eid pid st2,
        receive_github_webhook mac cfg st body (some p) evt del sig now
          = (.processed eid pid, st2) →
        is_duplicate st2 del = true) := by
  constructor
  · intro hdup
    rw [receive_accepts mac cfg st body (some p) evt del sig now hauth]
    simp [receive_verified, JVal.dget_of_isObj p hobj,
      JVal.dget_of_isObj _ hrepo, JVal.dgetOpt_of_isObj p hobj, hdup]
  · intro eid pid st2 hrec
    rw [receive_accepts mac cfg st body (some p) evt del sig now hauth] at hrec
    simp only [receive_verified, JVal.dget_of_isObj p hobj,
      JVal.dget_of_isObj _ hrepo, JVal.dgetOpt_of_isObj p hobj] at hrec
    by_cases hdup : is_duplicate st del = true
    · rw [if_pos hdup] at hrec
      simp at hrec
    · rw [if_neg hdup] at hrec
      have hst2 := congrArg Prod.snd hrec
      simp only at hst2
      rw [← hst2, is_duplicate_process_event, is_duplicate_store_event]

/-- C7 witness: on a store already holding delivery `d1` (and no configured
secret), a repeated delivery of `d1` with a well-formed payload is
acknowledged ignored with the store unchanged. -/
theorem duplicate_delivery_ignored_witness :
    receive_github_webhook (fun _ _ => "00ff") ⟨"", 24⟩ webSt1 [1, 2]
      (some (.jobj [])) "issues" "d1" none 9 = (.ignored, webSt1) :=
  (duplicate_delivery_ignored (fun _ _ => "00ff") ⟨"", 24⟩ webSt1 [1, 2]
    (.jobj []) "issues" "d1" none 9 (Or.inl rfl) rfl rfl).1 rfl

/-- C8: when a secret is configured, a delivery with no signature header —
or with an empty one, which the source's falsy check treats the same way —
is rejected with a 401 "Missing signature"; a delivery with any nonempty
signature other than `"sha256=" ++ HMAC-SHA256(secret, body)` is rejected
with a 401 "Invalid signature"; in all rejection cases the store comes back
unchanged, nothing stored or processed; the delivery carrying exactly the
correct signature proceeds to the verified body.  When no secret is
configured, every delivery proceeds regardless of its signature header. -/
theorem webhook_signature_spec (mac : String → List Nat → String)
    (cfg : Settings) (st : WebState) (body : List Nat) (payload : Option JVal)
    (evt del : String) (now : Nat) :
    (cfg.github_webhook_secret ≠ "" →
      (receive_github_webhook mac cfg st body payload evt del none now
        = (.unauthorized "Missing signature", st))
      ∧ (receive_github_webhook mac cfg st body payload evt del (some "") now
        = (.unauthorized "Missing signature", st))
      ∧ (∀ s, s ≠ "" → s ≠ "sha256=" ++ mac cfg.github_webhook_secret body →
          receive_github_webhook mac cfg st body payload evt del (some s) now
            = (.unauthorized "Invalid signature", st))
      ∧ receive_github_webhook mac cfg st body payload evt del
          (some ("sha256=" ++ mac cfg.github_webhook_secret body)) now
          = receive_verified st payload evt del now)
    ∧ (cfg.github_webhook_secret = "" →
        ∀ sig, receive_github_webhook mac cfg st body payload evt del sig now
          = receive_verified st payload evt del now) := by
  constructor
  · intro hsec
    refine ⟨?_, ?_, ?_, ?_⟩
    · unfold receive_github_webhook
      rw [if_pos hsec]
    · unfold receive_github_webhook
      rw [if_pos hsec]
      show (if ("" : String) = ""
            then (WebhookResponse.unauthorized "Missing signature", st)
            else if ¬ verify_github_signature mac body "" cfg.github_webhook_secret
            then (WebhookResponse.unauthorized "Invalid signature", st)
            else receive_verified st payload evt del now)
          = (WebhookResponse.unauthorized "Missing signature", st)
      rw [if_pos rfl]
    · intro s hs0 hs
      have hv := verify_github_signature_wrong mac body cfg.github_webhook_secret s hs
      unfold receive_github_webhook
      rw [if_pos hsec]
      show (if s = ""
            then (WebhookResponse.unauthorized "Missing signature", st)
            else if ¬ verify_github_signature mac body s cfg.github_webhook_secret
            then (WebhookResponse.unauthorized "Invalid signature", st)
            else receive_verified st payload evt del now)
          = (WebhookResponse.unauthorized "Invalid signature", st)
      rw [if_neg hs0, if_pos (by simp [hv])]
    · exact receive_accepts mac cfg st body payload evt del _ now (Or.inr rfl)
  · intro hsec sig
    exact receive_accepts mac cfg st body payload evt del sig now (Or.inl hsec)

/-- C8 witness: with secret `"s"` configured, an empty signature header is
rejected as missing, a wrong one as invalid — both with the store
unchanged — while under the same configuration the correct signature for the
same body is accepted into the verified body. -/
theorem webhook_signature_spec_witness :
    receive_github_webhook (fun _ _ => "00ff") ⟨"s", 24⟩ webSt0 [1, 2]
      (some (.jobj [])) "issues" "d1" (some "") 9
      = (.unauthorized "Missing signature", webSt0)
    ∧ receive_github_webhook (fun _ _ => "00ff") ⟨"s", 24⟩ webSt0 [1, 2]
      (some (.jobj [])) "issues" "d1" (some "bad") 9
      = (.unauthorized "Invalid signature", webSt0)
    ∧ receive_github_webhook (fun _ _ => "00ff") ⟨"s", 24⟩ webSt0 [1, 2]
      (some (.jobj [])) "issues" "d1" (some "sha256=00ff") 9
      = receive_verified webSt0 (some (.jobj [])) "issues" "d1" 9 :=
  ⟨((webhook_signature_spec (fun _ _ => "00ff") ⟨"s", 24⟩ webSt0 [1, 2]
      (some (.jobj [])) "issues" "d1" 9).1 (by decide)).2.1,
   ((webhook_signature_spec (fun _ _ => "00ff") ⟨"s", 24⟩ webSt0 [1, 2]
      (some (.jobj [])) "issues" "d1" 9).1 (by decide)).2.2.1 "bad"
      (by decide) (by decide),
   ((webhook_signature_spec (fun _ _ => "00ff") ⟨"s", 24⟩ webSt0 [1, 2]
      (some (.jobj [])) "issues" "d1" 9).1 (by decide)).2.2.2⟩
